import Mathlib

/-!
Shallow embedding of the cross-database reconciliation scripts
(`src/db_connectors/database.py` and `src/business_validations.py`).

Modelling conventions:
* Python exceptions are `Except String`: the string is the exception text
  (`str(e)`); a raised exception is `.error`.
* Scalar SQL values are `Value` (integer, text, or SQL NULL).  Revenue
  aggregates (`SUM(amount)`) are exact rationals `ℚ`, matching the
  `decimal.Decimal` values the drivers return for numeric columns; dividing
  by a zero `Decimal` raises, which the model renders as `.error`.
* `pd.DataFrame(list_of_dicts)` infers its columns from the dict keys, so a
  frame built from zero rows has zero columns; `pd.merge(..., on=k)` raises
  `KeyError` when `k` is not a column of both frames.  Hence the merge model
  fails when either input row list is empty.
* `pd.merge` performs an inner join that preserves the order of the left
  keys and, crucially, matches equal key values including null = null
  (pandas factorizes NaN/None like any other key value).
-/

namespace MultiDB

/-- Validation verdicts used by every check in `business_validations.py`. -/
inductive Status where
  | PASSED
  | FAILED
  | ERROR
  deriving DecidableEq, Repr

/-- Scalar database values: integers, text, or SQL NULL (Python `None`). -/
inductive Value where
  | int (i : ℤ)
  | str (s : String)
  | null
  deriving DecidableEq, Repr

/-! ### db_connectors/database.py -/

/-- The four connector classes of `database.py`. -/
inductive ConnectorKind where
  | PostgresConnector
  | OracleConnector
  | TeradataConnector
  | SnowflakeConnector
  deriving DecidableEq, Repr

/-- The `connectors` registry dict inside `get_connector`. -/
def connectors : List (String × ConnectorKind) :=
  [("postgres", ConnectorKind.PostgresConnector),
   ("oracle", ConnectorKind.OracleConnector),
   ("teradata", ConnectorKind.TeradataConnector),
   ("snowflake", ConnectorKind.SnowflakeConnector)]

/-- Embeds `get_connector`: dict membership test, `ValueError` on a miss,
construction of the matching connector class on a hit. -/
def get_connector (db_type : String) : Except String ConnectorKind :=
  match connectors.lookup db_type with
  | some c => Except.ok c
  | none => Except.error ("Unsupported database type: " ++ db_type)

/-- Keys of a Python dict modelled as an association list. -/
def keys (d : List (String × Value)) : List String := d.map Prod.fst

/-- Python dict lookup `d[k]` (first — and with `dictInsert`, only — binding). -/
def dlookup (k : String) : List (String × Value) → Option Value
  | [] => none
  | p :: ps => if p.1 = k then some p.2 else dlookup k ps

/-- Python dict assignment semantics: a repeated key overwrites the stored
value in place, a fresh key is appended in insertion order. -/
def dictInsert (d : List (String × Value)) (k : String) (v : Value) :
    List (String × Value) :=
  if k ∈ keys d then d.map (fun p => if p.1 = k then (k, v) else p)
  else d ++ [(k, v)]

/-- Folding key/value pairs into a dict, as `dict(pairs)` does. -/
def dictFold (d : List (String × Value)) :
    List (String × Value) → List (String × Value)
  | [] => d
  | p :: ps => dictFold (dictInsert d p.1 p.2) ps

/-- The `dict(zip(columns, row))` step of `DatabaseConnector.execute_query`:
column names are zipped positionally with the row values and poured into a
dict. -/
def rowToDict (columns : List String) (row : List Value) :
    List (String × Value) :=
  dictFold [] (columns.zip row)

/-- Embeds the result construction of `DatabaseConnector.execute_query`: one
dict per fetched row, all built from the same cursor column list. -/
def execute_query (columns : List String) (rows : List (List Value)) :
    List (List (String × Value)) :=
  rows.map (rowToDict columns)

/-! ### business_validations.py — customer count check -/

/-- The result dict of `validate_customer_data`.  The ERROR branch returns a
dict without the four count keys, hence the `Option` fields. -/
structure CustomerResult where
  postgres_count : Option ℤ
  oracle_count : Option ℤ
  teradata_count : Option ℤ
  snowflake_count : Option ℤ
  validation_status : Status
  message : String
  deriving DecidableEq, Repr

/-- The `try` block of `validate_customer_data` up to the `results` dict: the
four queries run in order and the first exception aborts the rest.  Each
input is the already-extracted `row[0]['customer_count']` scalar, with any
driver/indexing failure folded into the `Except`. -/
def customerPipeline (pgRes oraRes tdRes sfRes : Except String ℤ) :
    Except String (ℤ × ℤ × ℤ × ℤ) := do
  let a ← pgRes
  let b ← oraRes
  let c ← tdRes
  let d ← sfRes
  pure (a, b, c, d)

/-- Embeds `BusinessValidator.validate_customer_data`.  The mismatch test is
the source's `len(set(counts)) != 1` over the four dict values in insertion
order. -/
def validate_customer_data (pgRes oraRes tdRes sfRes : Except String ℤ) :
    CustomerResult :=
  match customerPipeline pgRes oraRes tdRes sfRes with
  | Except.error e =>
      ⟨none, none, none, none, Status.ERROR, "Error during validation: " ++ e⟩
  | Except.ok (a, b, c, d) =>
      let counts : List ℤ := [a, b, c, d]
      if counts.dedup.length ≠ 1 then
        ⟨some a, some b, some c, some d, Status.FAILED,
          "Customer counts do not match across systems"⟩
      else
        ⟨some a, some b, some c, some d, Status.PASSED,
          "Customer counts match across all systems"⟩

/-! ### business_validations.py — revenue check -/

/-- One record of the revenue check's `merged_data` after the
`diff_percentage` column is added: the join key, the two suffixed revenue
columns, and the computed percentage. -/
structure RevMergedRow where
  date : Value
  daily_revenue_pg : ℚ
  daily_revenue_sf : ℚ
  diff_percentage : ℚ
  deriving DecidableEq, Repr

/-- Embeds `pd.merge(pg_data, snowflake_data, on='date', ...)`.  A frame
built from an empty row list has no columns, so the merge raises `KeyError`
when either side is empty; otherwise it is an inner join preserving left-key
order, with equal keys matched — including null = null, as pandas does. -/
def revenueMerge (pg sf : List (Value × ℚ)) :
    Except String (List (Value × ℚ × ℚ)) :=
  if pg = [] ∨ sf = [] then Except.error "KeyError: date"
  else Except.ok (pg.flatMap fun p =>
    (sf.filter fun s => s.1 = p.1).map fun s => (p.1, p.2, s.2))

/-- Embeds the `diff_percentage` column:
`abs((daily_revenue_pg - daily_revenue_sf) / daily_revenue_pg) * 100`.
The revenues are exact decimals, so a zero baseline raises a division
error (as spec design note 9 records), modelled as `.error`. -/
def computeDiffs : List (Value × ℚ × ℚ) → Except String (List RevMergedRow)
  | [] => Except.ok []
  | r :: rs =>
      if r.2.1 = 0 then Except.error "division by zero"
      else do
        let rest ← computeDiffs rs
        pure (⟨r.1, r.2.1, r.2.2, |(r.2.1 - r.2.2) / r.2.1| * 100⟩ :: rest)

/-- The whole `try` block of `validate_revenue_data`: the two queries, the
merge, and the percentage column, any of which can raise. -/
def revenuePipeline (pgRes sfRes : Except String (List (Value × ℚ))) :
    Except String (List RevMergedRow) := do
  let pg ← pgRes
  let sf ← sfRes
  let merged ← revenueMerge pg sf
  computeDiffs merged

/-- The result dict of `validate_revenue_data` (and, with other field names,
of `validate_inventory_levels`): the PASSED and ERROR branches carry no
`discrepancies` key, modelled as the empty list. -/
structure RevenueResult where
  validation_status : Status
  message : String
  discrepancies : List RevMergedRow
  deriving DecidableEq, Repr

/-- Embeds `BusinessValidator.validate_revenue_data`: a day is a discrepancy
exactly when its `diff_percentage` exceeds 1. -/
def validate_revenue_data (pgRes sfRes : Except String (List (Value × ℚ))) :
    RevenueResult :=
  match revenuePipeline pgRes sfRes with
  | Except.error e => ⟨Status.ERROR, "Error during validation: " ++ e, []⟩
  | Except.ok rows =>
      let discrepancies := rows.filter fun r => 1 < r.diff_percentage
      if 0 < discrepancies.length then
        ⟨Status.FAILED,
          "Found " ++ toString discrepancies.length ++
            " days with revenue discrepancy > 1%",
          discrepancies⟩
      else
        ⟨Status.PASSED,
          "Revenue data matches within 1% tolerance across systems", []⟩

/-! ### business_validations.py — inventory check -/

/-- One row of the inventory queries: the two join-key columns and the two
payload columns. -/
structure InvRow where
  product_id : Value
  product_name : Value
  current_stock : Value
  last_updated : Value
  deriving DecidableEq, Repr

/-- One record of the inventory check's `merged_data`: join keys plus the
suffixed per-source payload columns. -/
structure InvMergedRow where
  product_id : Value
  product_name : Value
  current_stock_pg : Value
  last_updated_pg : Value
  current_stock_oracle : Value
  last_updated_oracle : Value
  deriving DecidableEq, Repr

/-- Embeds `pd.merge(pg_data, oracle_data, on=['product_id', 'product_name'],
...)`: same pandas semantics as `revenueMerge`, with a two-column key. -/
def inventoryMerge (pg ora : List InvRow) :
    Except String (List InvMergedRow) :=
  if pg = [] ∨ ora = [] then Except.error "KeyError: product_id"
  else Except.ok (pg.flatMap fun p =>
    (ora.filter fun o =>
        o.product_id = p.product_id ∧ o.product_name = p.product_name).map
      fun o => ⟨p.product_id, p.product_name, p.current_stock, p.last_updated,
        o.current_stock, o.last_updated⟩)

/-- The `try` block of `validate_inventory_levels` up to `merged_data`. -/
def inventoryPipeline (pgRes oraRes : Except String (List InvRow)) :
    Except String (List InvMergedRow) := do
  let pg ← pgRes
  let ora ← oraRes
  inventoryMerge pg ora

/-- The result dict of `validate_inventory_levels`. -/
structure InventoryResult where
  validation_status : Status
  message : String
  discrepancies : List InvMergedRow
  deriving DecidableEq, Repr

/-- Embeds `BusinessValidator.validate_inventory_levels`: a joined row is a
discrepancy exactly when `current_stock_pg != current_stock_oracle`. -/
def validate_inventory_levels (pgRes oraRes : Except String (List InvRow)) :
    InventoryResult :=
  match inventoryPipeline pgRes oraRes with
  | Except.error e =>
      ⟨Status.ERROR, "Error during inventory validation: " ++ e, []⟩
  | Except.ok rows =>
      let discrepancies := rows.filter fun r =>
        r.current_stock_pg ≠ r.current_stock_oracle
      if 0 < discrepancies.length then
        ⟨Status.FAILED,
          "Found " ++ toString discrepancies.length ++
            " products with inventory discrepancies",
          discrepancies⟩
      else
        ⟨Status.PASSED, "Inventory levels match across systems", []⟩

/-! ### Dict-building lemmas for `execute_query` -/

theorem keys_nil : keys [] = [] := rfl

theorem keys_cons (p : String × Value) (ps : List (String × Value)) :
    keys (p :: ps) = p.1 :: keys ps := rfl

theorem keys_append (d₁ d₂ : List (String × Value)) :
    keys (d₁ ++ d₂) = keys d₁ ++ keys d₂ := by
  simp [keys]

theorem keys_dictInsert (d : List (String × Value)) (k : String) (v : Value) :
    keys (dictInsert d k v) = if k ∈ keys d then keys d else keys d ++ [k] := by
  unfold dictInsert
  split
  case isTrue h =>
    unfold keys
    rw [List.map_map]
    refine List.map_congr_left ?_
    intro p _
    by_cases hp : p.1 = k <;> simp [hp]
  case isFalse h =>
    simp [keys]

theorem mem_keys_dictInsert (a : String) (d : List (String × Value))
    (k : String) (v : Value) :
    a ∈ keys (dictInsert d k v) ↔ a ∈ keys d ∨ a = k := by
  rw [keys_dictInsert]
  split
  case isTrue h =>
    constructor
    · exact Or.inl
    · rintro (ha | rfl)
      · exact ha
      · exact h
  case isFalse h => simp

theorem nodup_keys_dictInsert (d : List (String × Value)) (k : String)
    (v : Value) (h : (keys d).Nodup) : (keys (dictInsert d k v)).Nodup := by
  rw [keys_dictInsert]
  split
  case isTrue _ => exact h
  case isFalse hk => simp [List.nodup_append, h, hk]

theorem dlookup_dictInsert_self (d : List (String × Value)) (k : String)
    (v : Value) : dlookup k (dictInsert d k v) = some v := by
  unfold dictInsert
  split
  case isTrue h =>
    induction d with
    | nil => simp [keys_nil] at h
    | cons p ps ih =>
      by_cases hp : p.1 = k
      · simp [dlookup, hp]
      · rw [keys_cons, List.mem_cons] at h
        have hk : k ∈ keys ps := by
          rcases h with h | h
          · exact absurd h.symm hp
          · exact h
        simpa [dlookup, hp] using ih hk
  case isFalse h =>
    induction d with
    | nil => simp [dlookup]
    | cons p ps ih =>
      rw [keys_cons, List.mem_cons] at h
      push_neg at h
      have hp : p.1 ≠ k := fun hpk => h.1 hpk.symm
      simpa [dlookup, hp] using ih h.2

theorem dictFold_append (d : List (String × Value))
    (ps qs : List (String × Value)) :
    dictFold d (ps ++ qs) = dictFold (dictFold d ps) qs := by
  induction ps generalizing d with
  | nil => rfl
  | cons p ps ih => simp [dictFold, ih]

theorem mem_keys_dictFold (a : String) (d ps : List (String × Value)) :
    a ∈ keys (dictFold d ps) ↔ a ∈ keys d ∨ a ∈ ps.map Prod.fst := by
  induction ps generalizing d with
  | nil => simp [dictFold]
  | cons p ps ih =>
    rw [dictFold, ih, mem_keys_dictInsert]
    simp
    tauto

theorem nodup_keys_dictFold (d ps : List (String × Value))
    (h : (keys d).Nodup) : (keys (dictFold d ps)).Nodup := by
  induction ps generalizing d with
  | nil => exact h
  | cons p ps ih => exact ih _ (nodup_keys_dictInsert _ _ _ h)

theorem dictFold_fresh (ps : List (String × Value)) :
    ∀ d : List (String × Value), (∀ a ∈ ps.map Prod.fst, a ∉ keys d) →
    (ps.map Prod.fst).Nodup → dictFold d ps = d ++ ps := by
  induction ps with
  | nil => simp [dictFold]
  | cons p ps ih =>
    intro d hfresh hnodup
    have hp : p.1 ∉ keys d := hfresh p.1 (by simp)
    have hins : dictInsert d p.1 p.2 = d ++ [p] := by
      unfold dictInsert
      rw [if_neg hp]
    rcases List.nodup_cons.mp hnodup with ⟨hp1, hps⟩
    have hfresh2 : ∀ a ∈ ps.map Prod.fst, a ∉ keys (d ++ [p]) := by
      intro a ha
      rw [keys_append, keys_cons, keys_nil]
      have h1 : a ∉ keys d := hfresh a (by simp [ha])
      have h2 : a ≠ p.1 := fun haeq => hp1 (haeq ▸ ha)
      simp [h1, h2]
    rw [dictFold, hins, ih (d ++ [p]) hfresh2 hps, List.append_assoc]
    rfl

theorem rowToDict_eq_zip (cols : List String) (vals : List Value)
    (hnd : cols.Nodup) (hlen : cols.length = vals.length) :
    rowToDict cols vals = cols.zip vals := by
  unfold rowToDict
  rw [dictFold_fresh]
  · simp
  · intro a _
    simp [keys]
  · rw [List.map_fst_zip cols vals (le_of_eq hlen)]
    exact hnd

theorem rowToDict_length_lt (cols : List String) (vals : List Value)
    (hlen : cols.length = vals.length) (hdup : ¬ cols.Nodup) :
    (rowToDict cols vals).length < cols.length := by
  have hnodup : (keys (rowToDict cols vals)).Nodup :=
    nodup_keys_dictFold _ _ (by simp [keys])
  have hsub : keys (rowToDict cols vals) ⊆ cols.dedup := by
    intro a ha
    rw [rowToDict, mem_keys_dictFold] at ha
    rcases ha with ha | ha
    · simp [keys] at ha
    · rw [List.map_fst_zip cols vals (le_of_eq hlen)] at ha
      exact List.mem_dedup.mpr ha
  have hle : (keys (rowToDict cols vals)).length ≤ cols.dedup.length :=
    (hnodup.subperm hsub).length_le
  have hlt : cols.dedup.length < cols.length := by
    have hsl : cols.dedup.Sublist cols := List.dedup_sublist cols
    have hne : cols.dedup ≠ cols := fun h => hdup (h ▸ List.nodup_dedup cols)
    exact lt_of_le_of_ne hsl.length_le fun h => hne (hsl.eq_of_length h)
  calc (rowToDict cols vals).length
      = (keys (rowToDict cols vals)).length := by simp [keys]
    _ ≤ cols.dedup.length := hle
    _ < cols.length := hlt

theorem rowToDict_snoc (cols : List String) (vals : List Value) (k : String)
    (v : Value) (hlen : cols.length = vals.length) :
    dlookup k (rowToDict (cols ++ [k]) (vals ++ [v])) = some v := by
  unfold rowToDict
  rw [List.zip_append hlen, dictFold_append]
  exact dlookup_dictInsert_self _ _ _

/-- C10: `execute_query` builds each returned row by zipping the cursor's
column names with the row values positionally; with distinct column names
the dict is exactly the zipped pairing, a later duplicate column silently
overwrites the earlier one's value, and a row with duplicated column names
yields a dict with strictly fewer entries than the row has columns. -/
theorem execute_query_zip_spec :
    (∀ (cols : List String) (vals : List Value), cols.Nodup →
      cols.length = vals.length → execute_query cols [vals] = [cols.zip vals]) ∧
    (∀ (cols : List String) (vals : List Value) (k : String) (v : Value),
      cols.length = vals.length →
      dlookup k ((execute_query (cols ++ [k]) [vals ++ [v]]).headD []) =
        some v) ∧
    (∀ (cols : List String) (vals : List Value),
      cols.length = vals.length → ¬ cols.Nodup →
      ∀ d ∈ execute_query cols [vals], d.length < cols.length) := by
  refine ⟨?_, ?_, ?_⟩
  · intro cols vals hnd hlen
    simp [execute_query, rowToDict_eq_zip cols vals hnd hlen]
  · intro cols vals k v hlen
    simp [execute_query]
    exact rowToDict_snoc cols vals k v hlen
  · intro cols vals hlen hdup d hd
    simp [execute_query] at hd
    exact hd ▸ rowToDict_length_lt cols vals hlen hdup

/-- Witness for C10 at concrete inputs: querying columns `["a", "a"]` with
row values `[1, 2]` yields a one-entry dict in which the later column's
value 2 has overwritten the earlier 1. -/
theorem execute_query_zip_spec_witness :
    dlookup "a" ((execute_query (["a"] ++ ["a"])
      [[Value.int 1] ++ [Value.int 2]]).headD []) = some (Value.int 2) :=
  execute_query_zip_spec.2.1 ["a"] [Value.int 1] "a" (Value.int 2) rfl

/-! ### get_connector -/

/-- C9: `get_connector` raises `ValueError` naming the unsupported type for
every string outside the four registered names, and returns the matching
connector class for each registered name. -/
theorem get_connector_spec :
    (∀ s : String, s ≠ "postgres" → s ≠ "oracle" → s ≠ "teradata" →
      s ≠ "snowflake" →
      get_connector s = Except.error ("Unsupported database type: " ++ s)) ∧
    get_connector "postgres" = Except.ok ConnectorKind.PostgresConnector ∧
    get_connector "oracle" = Except.ok ConnectorKind.OracleConnector ∧
    get_connector "teradata" = Except.ok ConnectorKind.TeradataConnector ∧
    get_connector "snowflake" = Except.ok ConnectorKind.SnowflakeConnector := by
  refine ⟨?_, rfl, rfl, rfl, rfl⟩
  intro s h1 h2 h3 h4
  have e1 : (s == "postgres") = false := by simp [h1]
  have e2 : (s == "oracle") = false := by simp [h2]
  have e3 : (s == "teradata") = false := by simp [h3]
  have e4 : (s == "snowflake") = false := by simp [h4]
  simp [get_connector, connectors, List.lookup, e1, e2, e3, e4]

/-- Witness for C9: the unregistered name `mysql` is rejected with the
`ValueError` message naming it. -/
theorem get_connector_spec_witness :
    get_connector "mysql" = Except.error ("Unsupported database type: " ++ "mysql") :=
  get_connector_spec.1 "mysql" (by decide) (by decide) (by decide) (by decide)

/-! ### Customer count check -/

theorem dedup_four_length_one_iff (a b c d : ℤ) :
    ([a, b, c, d] : List ℤ).dedup.length = 1 ↔ b = a ∧ c = a ∧ d = a := by
  constructor
  · intro h
    obtain ⟨x, hx⟩ := List.length_eq_one.mp h
    have hmem : ∀ y ∈ ([a, b, c, d] : List ℤ), y = x := by
      intro y hy
      have hyd : y ∈ ([a, b, c, d] : List ℤ).dedup := List.mem_dedup.mpr hy
      rw [hx] at hyd
      simpa using hyd
    have ha := hmem a (by simp)
    have hb := hmem b (by simp)
    have hc := hmem c (by simp)
    have hd := hmem d (by simp)
    exact ⟨hb.trans ha.symm, hc.trans ha.symm, hd.trans ha.symm⟩
  · rintro ⟨rfl, rfl, rfl⟩
    simp [List.dedup_cons_of_mem]

theorem validate_customer_ok (a b c d : ℤ) :
    validate_customer_data (Except.ok a) (Except.ok b) (Except.ok c)
        (Except.ok d) =
      if ([a, b, c, d] : List ℤ).dedup.length ≠ 1 then
        ⟨some a, some b, some c, some d, Status.FAILED,
          "Customer counts do not match across systems"⟩
      else
        ⟨some a, some b, some c, some d, Status.PASSED,
          "Customer counts match across all systems"⟩ := rfl

theorem validate_customer_error_eq (pg ora td sf : Except String ℤ)
    (e : String) (hp : customerPipeline pg ora td sf = Except.error e) :
    validate_customer_data pg ora td sf =
      ⟨none, none, none, none, Status.ERROR,
        "Error during validation: " ++ e⟩ := by
  unfold validate_customer_data
  rw [hp]

theorem validate_customer_of_ok (pg ora td sf : Except String ℤ)
    (a b c d : ℤ)
    (hp : customerPipeline pg ora td sf = Except.ok (a, b, c, d)) :
    validate_customer_data pg ora td sf =
      if ([a, b, c, d] : List ℤ).dedup.length ≠ 1 then
        ⟨some a, some b, some c, some d, Status.FAILED,
          "Customer counts do not match across systems"⟩
      else
        ⟨some a, some b, some c, some d, Status.PASSED,
          "Customer counts match across all systems"⟩ := by
  unfold validate_customer_data
  rw [hp]

theorem validate_revenue_error_eq (pgRes sfRes : Except String (List (Value × ℚ)))
    (e : String) (hp : revenuePipeline pgRes sfRes = Except.error e) :
    validate_revenue_data pgRes sfRes =
      ⟨Status.ERROR, "Error during validation: " ++ e, []⟩ := by
  unfold validate_revenue_data
  rw [hp]

theorem validate_revenue_of_ok (pgRes sfRes : Except String (List (Value × ℚ)))
    (rows : List RevMergedRow)
    (hp : revenuePipeline pgRes sfRes = Except.ok rows) :
    validate_revenue_data pgRes sfRes =
      if 0 < (rows.filter fun r => 1 < r.diff_percentage).length then
        ⟨Status.FAILED,
          "Found " ++
            toString (rows.filter fun r => 1 < r.diff_percentage).length ++
            " days with revenue discrepancy > 1%",
          rows.filter fun r => 1 < r.diff_percentage⟩
      else
        ⟨Status.PASSED,
          "Revenue data matches within 1% tolerance across systems", []⟩ := by
  unfold validate_revenue_data
  rw [hp]

theorem validate_inventory_error_eq (pgRes oraRes : Except String (List InvRow))
    (e : String) (hp : inventoryPipeline pgRes oraRes = Except.error e) :
    validate_inventory_levels pgRes oraRes =
      ⟨Status.ERROR, "Error during inventory validation: " ++ e, []⟩ := by
  unfold validate_inventory_levels
  rw [hp]

theorem validate_inventory_of_ok (pgRes oraRes : Except String (List InvRow))
    (rows : List InvMergedRow)
    (hp : inventoryPipeline pgRes oraRes = Except.ok rows) :
    validate_inventory_levels pgRes oraRes =
      if 0 < (rows.filter fun r =>
          r.current_stock_pg ≠ r.current_stock_oracle).length then
        ⟨Status.FAILED,
          "Found " ++
            toString (rows.filter fun r =>
              r.current_stock_pg ≠ r.current_stock_oracle).length ++
            " products with inventory discrepancies",
          rows.filter fun r => r.current_stock_pg ≠ r.current_stock_oracle⟩
      else
        ⟨Status.PASSED, "Inventory levels match across systems", []⟩ := by
  unfold validate_inventory_levels
  rw [hp]

/-- C2: in the customer-count check the status is PASSED exactly when all
four counts are identical, and whenever the set of distinct counts has more
than one element the status is FAILED and the result dict records each
source's count under its own key. -/
theorem customer_exact_match_spec (a b c d : ℤ) :
    ((validate_customer_data (Except.ok a) (Except.ok b) (Except.ok c)
        (Except.ok d)).validation_status = Status.PASSED ↔
      b = a ∧ c = a ∧ d = a) ∧
    (1 < ([a, b, c, d] : List ℤ).dedup.length →
      validate_customer_data (Except.ok a) (Except.ok b) (Except.ok c)
          (Except.ok d) =
        ⟨some a, some b, some c, some d, Status.FAILED,
          "Customer counts do not match across systems"⟩) := by
  rw [validate_customer_ok]
  constructor
  · by_cases hone : ([a, b, c, d] : List ℤ).dedup.length = 1
    · rw [if_neg (by simpa using hone)]
      simpa using (dedup_four_length_one_iff a b c d).mp hone
    · rw [if_pos hone]
      constructor
      · intro hcontra
        exact absurd hcontra (by simp)
      · intro hall
        exact absurd ((dedup_four_length_one_iff a b c d).mpr hall) hone
  · intro hgt
    rw [if_pos (by omega)]

/-- Witness for C2: counts 5, 5, 5, 7 give two distinct values, status
FAILED, and all four counts recorded. -/
theorem customer_exact_match_spec_witness :
    validate_customer_data (Except.ok 5) (Except.ok 5) (Except.ok 5)
        (Except.ok 7) =
      ⟨some 5, some 5, some 5, some 7, Status.FAILED,
        "Customer counts do not match across systems"⟩ :=
  (customer_exact_match_spec 5 5 5 7).2 (by decide)

/-! ### Status invariant across all three checks -/

theorem filter_length_pos_iff {α : Type} (q : α → Bool) (l : List α) :
    0 < (l.filter q).length ↔ ∃ x ∈ l, q x = true := by
  rw [List.length_pos_iff_exists_mem]
  constructor
  · rintro ⟨x, hx⟩
    rcases List.mem_filter.mp hx with ⟨h1, h2⟩
    exact ⟨x, h1, h2⟩
  · rintro ⟨x, h1, h2⟩
    exact ⟨x, List.mem_filter.mpr ⟨h1, h2⟩⟩

/-- C1: each check returns status ERROR exactly when its `try` block raised
(query execution or comparison), and — absent an exception — returns FAILED
exactly when a mismatch was detected: for the scalar customer check, the
four counts are not all equal; for the row-level revenue and inventory
checks, the discrepancy set is non-empty. -/
theorem check_status_invariant :
    (∀ pg ora td sf : Except String ℤ,
      ((validate_customer_data pg ora td sf).validation_status = Status.ERROR ↔
        ∃ e, customerPipeline pg ora td sf = Except.error e)) ∧
    (∀ a b c d : ℤ,
      ((validate_customer_data (Except.ok a) (Except.ok b) (Except.ok c)
          (Except.ok d)).validation_status = Status.FAILED ↔
        ¬ (b = a ∧ c = a ∧ d = a))) ∧
    (∀ pgRes sfRes,
      ((validate_revenue_data pgRes sfRes).validation_status = Status.ERROR ↔
        ∃ e, revenuePipeline pgRes sfRes = Except.error e)) ∧
    (∀ pgRes sfRes rows, revenuePipeline pgRes sfRes = Except.ok rows →
      ((validate_revenue_data pgRes sfRes).validation_status = Status.FAILED ↔
        ∃ r ∈ rows, 1 < r.diff_percentage)) ∧
    (∀ pgRes oraRes,
      ((validate_inventory_levels pgRes oraRes).validation_status =
          Status.ERROR ↔
        ∃ e, inventoryPipeline pgRes oraRes = Except.error e)) ∧
    (∀ pgRes oraRes rows, inventoryPipeline pgRes oraRes = Except.ok rows →
      ((validate_inventory_levels pgRes oraRes).validation_status =
          Status.FAILED ↔
        ∃ r ∈ rows, r.current_stock_pg ≠ r.current_stock_oracle)) := by
  refine ⟨?_, ?_, ?_, ?_, ?_, ?_⟩
  · intro pg ora td sf
    cases hp : customerPipeline pg ora td sf with
    | error e =>
      rw [validate_customer_error_eq pg ora td sf e hp]
      simp
    | ok t =>
      obtain ⟨a, b, c, d⟩ := t
      rw [validate_customer_of_ok pg ora td sf a b c d hp]
      split_ifs <;> simp
  · intro a b c d
    rw [validate_customer_ok]
    by_cases hone : ([a, b, c, d] : List ℤ).dedup.length = 1
    · rw [if_neg (by simpa using hone)]
      simpa using (dedup_four_length_one_iff a b c d).mp hone
    · rw [if_pos hone]
      simpa using fun hall =>
        hone ((dedup_four_length_one_iff a b c d).mpr hall)
  · intro pgRes sfRes
    cases hp : revenuePipeline pgRes sfRes with
    | error e =>
      rw [validate_revenue_error_eq pgRes sfRes e hp]
      simp
    | ok rows =>
      rw [validate_revenue_of_ok pgRes sfRes rows hp]
      split_ifs <;> simp
  · intro pgRes sfRes rows hp
    rw [validate_revenue_of_ok pgRes sfRes rows hp]
    by_cases hpos :
        0 < (rows.filter fun r => 1 < r.diff_percentage).length
    · rw [if_pos hpos]
      simpa [decide_eq_true_eq] using
        (filter_length_pos_iff (fun r => decide (1 < r.diff_percentage)) rows).mp hpos
    · rw [if_neg hpos]
      constructor
      · intro hcontra
        exact absurd hcontra (by simp)
      · intro hex
        refine absurd ?_ hpos
        refine (filter_length_pos_iff _ rows).mpr ?_
        obtain ⟨r, hr, hlt⟩ := hex
        exact ⟨r, hr, by simpa [decide_eq_true_eq] using hlt⟩
  · intro pgRes oraRes
    cases hp : inventoryPipeline pgRes oraRes with
    | error e =>
      rw [validate_inventory_error_eq pgRes oraRes e hp]
      simp
    | ok rows =>
      rw [validate_inventory_of_ok pgRes oraRes rows hp]
      split_ifs <;> simp
  · intro pgRes oraRes rows hp
    rw [validate_inventory_of_ok pgRes oraRes rows hp]
    by_cases hpos :
        0 < (rows.filter fun r =>
          r.current_stock_pg ≠ r.current_stock_oracle).length
    · rw [if_pos hpos]
      simpa [decide_eq_true_eq] using
        (filter_length_pos_iff
          (fun r => decide (r.current_stock_pg ≠ r.current_stock_oracle))
          rows).mp hpos
    · rw [if_neg hpos]
      constructor
      · intro hcontra
        exact absurd hcontra (by simp)
      · intro hex
        refine absurd ?_ hpos
        refine (filter_length_pos_iff _ rows).mpr ?_
        obtain ⟨r, hr, hne⟩ := hex
        exact ⟨r, hr, by simpa [decide_eq_true_eq] using hne⟩

/-- Witness for C1: an inventory run whose only joined product has stocks
10 and 99 detects a mismatch and is classified FAILED. -/
theorem check_status_invariant_witness :
    (validate_inventory_levels
      (Except.ok [⟨Value.int 1, Value.str "x", Value.int 10, Value.null⟩])
      (Except.ok [⟨Value.int 1, Value.str "x", Value.int 99, Value.null⟩])
      ).validation_status = Status.FAILED :=
  (check_status_invariant.2.2.2.2.2
    (Except.ok [⟨Value.int 1, Value.str "x", Value.int 10, Value.null⟩])
    (Except.ok [⟨Value.int 1, Value.str "x", Value.int 99, Value.null⟩])
    [⟨Value.int 1, Value.str "x", Value.int 10, Value.null,
      Value.int 99, Value.null⟩] rfl).mpr
    ⟨⟨Value.int 1, Value.str "x", Value.int 10, Value.null,
      Value.int 99, Value.null⟩, by simp, by decide⟩

/-! ### Exception capture -/

/-- C5: an exception anywhere in a check's `try` block yields exactly one
ERROR result whose message embeds the exception's text, and an exception
raised by a source query is what enters the pipeline; the exception never
escapes the check. -/
theorem error_capture_spec :
    (∀ pg ora td sf : Except String ℤ, ∀ e : String,
      customerPipeline pg ora td sf = Except.error e →
      validate_customer_data pg ora td sf =
        ⟨none, none, none, none, Status.ERROR,
          "Error during validation: " ++ e⟩) ∧
    (∀ e : String, ∀ ora td sf : Except String ℤ,
      customerPipeline (Except.error e) ora td sf = Except.error e) ∧
    (∀ pgRes sfRes, ∀ e : String,
      revenuePipeline pgRes sfRes = Except.error e →
      validate_revenue_data pgRes sfRes =
        ⟨Status.ERROR, "Error during validation: " ++ e, []⟩) ∧
    (∀ e : String, ∀ sfRes, revenuePipeline (Except.error e) sfRes =
      Except.error e) ∧
    (∀ pg : List (Value × ℚ), ∀ e : String,
      revenuePipeline (Except.ok pg) (Except.error e) = Except.error e) ∧
    (∀ pgRes oraRes, ∀ e : String,
      inventoryPipeline pgRes oraRes = Except.error e →
      validate_inventory_levels pgRes oraRes =
        ⟨Status.ERROR, "Error during inventory validation: " ++ e, []⟩) ∧
    (∀ e : String, ∀ oraRes, inventoryPipeline (Except.error e) oraRes =
      Except.error e) := by
  refine ⟨?_, fun e ora td sf => rfl, ?_, fun e sfRes => rfl,
    fun pg e => rfl, ?_, fun e oraRes => rfl⟩
  · intro pg ora td sf e hp
    unfold validate_customer_data
    rw [hp]
  · intro pgRes sfRes e hp
    unfold validate_revenue_data
    rw [hp]
  · intro pgRes oraRes e hp
    unfold validate_inventory_levels
    rw [hp]

/-- Witness for C5: a failing postgres query makes the customer check return
the single ERROR result embedding the exception text. -/
theorem error_capture_spec_witness :
    validate_customer_data (Except.error "connection refused") (Except.ok 1)
        (Except.ok 1) (Except.ok 1) =
      ⟨none, none, none, none, Status.ERROR,
        "Error during validation: " ++ "connection refused"⟩ :=
  error_capture_spec.1 (Except.error "connection refused") (Except.ok 1)
    (Except.ok 1) (Except.ok 1) "connection refused" rfl

/-! ### Revenue check: single-day characterisation -/

theorem except_bind_ok {α β : Type} (a : α) (f : α → Except String β) :
    (Except.ok a >>= f) = f a := rfl

theorem except_bind_error {α β : Type} (e : String)
    (f : α → Except String β) :
    ((Except.error e : Except String α) >>= f) = Except.error e := rfl

theorem revenuePipeline_single (dt : Value) (b v : ℚ) (hb : b ≠ 0) :
    revenuePipeline (Except.ok [(dt, b)]) (Except.ok [(dt, v)]) =
      Except.ok [⟨dt, b, v, |(b - v) / b| * 100⟩] := by
  simp [revenuePipeline, revenueMerge, computeDiffs, hb, except_bind_ok]

theorem validate_revenue_single (dt : Value) (b v : ℚ) (hb : b ≠ 0) :
    ((validate_revenue_data (Except.ok [(dt, b)])
        (Except.ok [(dt, v)])).validation_status =
      if 1 < |(b - v) / b| * 100 then Status.FAILED else Status.PASSED) ∧
    ((validate_revenue_data (Except.ok [(dt, b)])
        (Except.ok [(dt, v)])).discrepancies =
      if 1 < |(b - v) / b| * 100 then [⟨dt, b, v, |(b - v) / b| * 100⟩]
      else []) := by
  rw [validate_revenue_of_ok _ _ _ (revenuePipeline_single dt b v hb)]
  by_cases h : 1 < |(b - v) / b| * 100 <;> simp [h, List.filter]

/-- C3: with the 1% tolerance, a day with baseline 100 and other value
101 - ε (0 < ε < 1) is within tolerance and the check passes, while
101 + ε exceeds it and the check fails; in general a day with non-zero
baseline b and other value v is flagged exactly when
abs((b - v) / b) * 100 strictly exceeds 1. -/
theorem revenue_tolerance_boundary :
    (∀ ε : ℚ, 0 < ε → ε < 1 → ∀ dt : Value,
      (validate_revenue_data (Except.ok [(dt, 100)])
          (Except.ok [(dt, 101 - ε)])).validation_status = Status.PASSED ∧
      (validate_revenue_data (Except.ok [(dt, 100)])
          (Except.ok [(dt, 101 + ε)])).validation_status = Status.FAILED) ∧
    (∀ dt : Value, ∀ b v : ℚ, b ≠ 0 →
      ((validate_revenue_data (Except.ok [(dt, b)])
          (Except.ok [(dt, v)])).validation_status = Status.FAILED ↔
        1 < |(b - v) / b| * 100)) := by
  have h100 : (100:ℚ) ≠ 0 := by norm_num
  constructor
  · intro ε h0 h1 dt
    constructor
    · rw [(validate_revenue_single dt 100 (101 - ε) h100).1, if_neg ?_]
      have he : (100:ℚ) - (101 - ε) = ε - 1 := by ring
      rw [he, abs_div, abs_of_nonpos (by linarith : ε - (1:ℚ) ≤ 0),
        abs_of_pos (by norm_num : (0:ℚ) < 100)]
      have heq : -(ε - 1) / 100 * 100 = 1 - ε := by ring
      rw [heq]
      intro hcontra
      linarith
    · rw [(validate_revenue_single dt 100 (101 + ε) h100).1, if_pos ?_]
      have he : (100:ℚ) - (101 + ε) = -(1 + ε) := by ring
      rw [he, abs_div, abs_of_nonpos (by linarith : -(1 + ε) ≤ (0:ℚ)),
        abs_of_pos (by norm_num : (0:ℚ) < 100)]
      have heq : -(-(1 + ε)) / 100 * 100 = 1 + ε := by ring
      rw [heq]
      linarith
  · intro dt b v hb
    rw [(validate_revenue_single dt b v hb).1]
    by_cases h : 1 < |(b - v) / b| * 100
    · rw [if_pos h]
      simp [h]
    · rw [if_neg h]
      simp [h]

/-- Witness for C3: with ε = 1/2 the day at 100 vs 100.5 stays within the
1% tolerance and the check passes. -/
theorem revenue_tolerance_boundary_witness :
    (validate_revenue_data (Except.ok [(Value.null, 100)])
        (Except.ok [(Value.null, 101 - 1/2)])).validation_status =
      Status.PASSED :=
  (revenue_tolerance_boundary.1 (1/2) one_half_pos one_half_lt_one
    Value.null).1

/-- C4: contrary to the claim, a joined day whose postgres baseline is 0
makes the tolerance computation raise a division error; the catch-all then
returns an ERROR-status result, and no discrepancy marked "undefined
percentage" exists anywhere in the check. -/
theorem revenue_zero_baseline_is_error :
    validate_revenue_data (Except.ok [(Value.null, (0:ℚ))])
        (Except.ok [(Value.null, (5:ℚ))]) =
      ⟨Status.ERROR, "Error during validation: division by zero", []⟩ := by
  have hp : revenuePipeline (Except.ok [(Value.null, (0:ℚ))])
      (Except.ok [(Value.null, (5:ℚ))]) =
      Except.error "division by zero" := by
    simp [revenuePipeline, revenueMerge, computeDiffs, except_bind_ok]
  rw [validate_revenue_error_eq _ _ _ hp]
  rfl

/-- C6: contrary to the claim, when all sources return zero rows the built
frames have no columns, the merge on the key column raises `KeyError`, and
both row-aligned checks return ERROR rather than PASSED. -/
theorem empty_results_give_error :
    validate_revenue_data (Except.ok []) (Except.ok []) =
      ⟨Status.ERROR, "Error during validation: KeyError: date", []⟩ ∧
    validate_inventory_levels (Except.ok []) (Except.ok []) =
      ⟨Status.ERROR,
        "Error during inventory validation: KeyError: product_id", []⟩ := by
  constructor
  · rw [validate_revenue_error_eq _ _ "KeyError: date"
      (by simp [revenuePipeline, revenueMerge, except_bind_ok, except_bind_error])]
    rfl
  · rw [validate_inventory_error_eq _ _ "KeyError: product_id"
      (by simp [inventoryPipeline, inventoryMerge, except_bind_ok, except_bind_error])]
    rfl

/-! ### Null join keys -/

theorem q100_ne_zero : (100:ℚ) ≠ 0 := by norm_num

theorem diff_100_200_gt_one : 1 < |((100:ℚ) - 200) / 100| * 100 := by
  rw [abs_of_nonpos (by norm_num)]
  norm_num

theorem diff_100_300_gt_one : 1 < |((100:ℚ) - 300) / 100| * 100 := by
  rw [abs_of_nonpos (by norm_num)]
  norm_num

/-- C8 counterexample: two rows whose join key is null are matched by the
merge into the joined comparison set and produce an ordinary value-mismatch
discrepancy, contradicting the claim that null keys never match and such
rows surface only as unmatched. -/
theorem null_keys_match_and_mismatch :
    (validate_revenue_data (Except.ok [(Value.null, (100:ℚ))])
        (Except.ok [(Value.null, (200:ℚ))])).validation_status =
      Status.FAILED ∧
    (validate_revenue_data (Except.ok [(Value.null, (100:ℚ))])
        (Except.ok [(Value.null, (200:ℚ))])).discrepancies =
      [⟨Value.null, 100, 200, |((100:ℚ) - 200) / 100| * 100⟩] := by
  obtain ⟨h1, h2⟩ := validate_revenue_single Value.null 100 200 q100_ne_zero
  rw [if_pos diff_100_200_gt_one] at h1 h2
  exact ⟨h1, h2⟩

/-- C8 (amended): in row-aligned comparisons a null join key matches another
null join key: the merge pairs such rows like any other equal key values,
the pair enters the joined comparison set, and a value difference beyond
the tolerance surfaces as an ordinary value-mismatch discrepancy; nothing
is excluded or reported as unmatched. -/
theorem null_keys_join_spec :
    (∀ q₁ q₂ : ℚ, revenueMerge [(Value.null, q₁)] [(Value.null, q₂)] =
      Except.ok [(Value.null, q₁, q₂)]) ∧
    (∀ q₁ q₂ : ℚ, q₁ ≠ 0 → 1 < |(q₁ - q₂) / q₁| * 100 →
      (validate_revenue_data (Except.ok [(Value.null, q₁)])
          (Except.ok [(Value.null, q₂)])).validation_status =
        Status.FAILED ∧
      (validate_revenue_data (Except.ok [(Value.null, q₁)])
          (Except.ok [(Value.null, q₂)])).discrepancies =
        [⟨Value.null, q₁, q₂, |(q₁ - q₂) / q₁| * 100⟩]) := by
  constructor
  · intro q₁ q₂
    simp [revenueMerge]
  · intro q₁ q₂ hq hgt
    obtain ⟨h1, h2⟩ := validate_revenue_single Value.null q₁ q₂ hq
    rw [if_pos hgt] at h1 h2
    exact ⟨h1, h2⟩

/-- Witness for the amended C8: null-keyed rows 100 vs 300 are joined and
flagged as a value mismatch. -/
theorem null_keys_join_spec_witness :
    (validate_revenue_data (Except.ok [(Value.null, (100:ℚ))])
        (Except.ok [(Value.null, (300:ℚ))])).validation_status =
      Status.FAILED :=
  (null_keys_join_spec.2 100 300 q100_ne_zero diff_100_300_gt_one).1

/-! ### Missing join keys in the inventory comparison -/

/-- C7 counterexample: with postgres rows {(1, x, 10), (3, z, 30)} and
oracle rows {(1, x, 10)}, the key 3 row exists only in postgres, yet the
check returns PASSED with no discrepancy and no missing-in-source report —
the inner join silently drops the row. -/
theorem missing_key_row_passes :
    validate_inventory_levels
        (Except.ok [⟨Value.int 1, Value.str "x", Value.int 10, Value.null⟩,
          ⟨Value.int 3, Value.str "z", Value.int 30, Value.null⟩])
        (Except.ok [⟨Value.int 1, Value.str "x", Value.int 10, Value.null⟩]) =
      ⟨Status.PASSED, "Inventory levels match across systems", []⟩ := by
  rfl

/-- C7 (amended): the inventory comparison is an inner join, so a row whose
key pair appears in only one source is silently dropped rather than
reported: every reported discrepancy's key pair occurs in both sources, and
in the spec's concrete scenario the result is FAILED with exactly one
discrepancy — the value mismatch 20 vs 25 at key 2 — while keys 3 and 4
are not reported at all. -/
theorem inventory_inner_join_spec :
    (∀ pg ora : List InvRow,
      ∀ r ∈ (validate_inventory_levels (Except.ok pg)
          (Except.ok ora)).discrepancies,
      (∃ p ∈ pg, p.product_id = r.product_id ∧
        p.product_name = r.product_name) ∧
      (∃ o ∈ ora, o.product_id = r.product_id ∧
        o.product_name = r.product_name)) ∧
    validate_inventory_levels
        (Except.ok [⟨Value.int 1, Value.str "x", Value.int 10, Value.null⟩,
          ⟨Value.int 2, Value.str "y", Value.int 20, Value.null⟩,
          ⟨Value.int 3, Value.str "z", Value.int 30, Value.null⟩])
        (Except.ok [⟨Value.int 1, Value.str "x", Value.int 10, Value.null⟩,
          ⟨Value.int 2, Value.str "y", Value.int 25, Value.null⟩,
          ⟨Value.int 4, Value.str "w", Value.int 40, Value.null⟩]) =
      ⟨Status.FAILED, "Found 1 products with inventory discrepancies",
        [⟨Value.int 2, Value.str "y", Value.int 20, Value.null,
          Value.int 25, Value.null⟩]⟩ := by
  constructor
  · intro pg ora r hr
    by_cases hemp : pg = [] ∨ ora = []
    · have hp : inventoryPipeline (Except.ok pg) (Except.ok ora) =
          Except.error "KeyError: product_id" := by
        simp [inventoryPipeline, inventoryMerge, hemp, except_bind_ok]
      rw [validate_inventory_error_eq _ _ _ hp] at hr
      simp at hr
    · have hp : inventoryPipeline (Except.ok pg) (Except.ok ora) =
          Except.ok (pg.flatMap fun p =>
            (ora.filter fun o =>
                o.product_id = p.product_id ∧
                o.product_name = p.product_name).map
              fun o => ⟨p.product_id, p.product_name, p.current_stock,
                p.last_updated, o.current_stock, o.last_updated⟩) := by
        simp [inventoryPipeline, inventoryMerge, hemp, except_bind_ok]
      rw [validate_inventory_of_ok _ _ _ hp] at hr
      split_ifs at hr with hpos
      · have hr2 := List.mem_of_mem_filter hr
        rcases List.mem_flatMap.mp hr2 with ⟨p, hpmem, hr3⟩
        rcases List.mem_map.mp hr3 with ⟨o, homem, hro⟩
        rcases List.mem_filter.mp homem with ⟨homem2, hkey⟩
        rw [decide_eq_true_eq] at hkey
        subst hro
        exact ⟨⟨p, hpmem, rfl, rfl⟩, ⟨o, homem2, hkey.1, hkey.2⟩⟩
      · simp at hr
  · rfl

/-- Witness for the amended C7: each source holds one row with the same key
pair (1, x) but stocks 10 vs 99; the resulting discrepancy's key pair is
found in both sources. -/
theorem inventory_inner_join_spec_witness :
    (∃ p ∈ [(⟨Value.int 1, Value.str "x", Value.int 10, Value.null⟩ : InvRow)],
      p.product_id = Value.int 1 ∧ p.product_name = Value.str "x") ∧
    (∃ o ∈ [(⟨Value.int 1, Value.str "x", Value.int 99, Value.null⟩ : InvRow)],
      o.product_id = Value.int 1 ∧ o.product_name = Value.str "x") :=
  inventory_inner_join_spec.1
    [⟨Value.int 1, Value.str "x", Value.int 10, Value.null⟩]
    [⟨Value.int 1, Value.str "x", Value.int 99, Value.null⟩]
    ⟨Value.int 1, Value.str "x", Value.int 10, Value.null,
      Value.int 99, Value.null⟩
    (by decide)

end MultiDB
